import Mathlib

/-!
Shallow embedding of `src/testing.py` (Recipe Query Assistant).

The script wires four pieces together:
  * `generate_query_code` (lines 27-64): one `ollama.chat` call whose stripped
    message content is returned, or `""` on any exception / missing content;
  * `execute_query_code` (lines 68-79): rejects code lacking the substring
    `"result ="` (checked on the lowercased text), otherwise `exec`s the code
    with `exec_locals = {"df": df}` and returns `exec_locals.get("result", None)`,
    or `None` when `exec` raises;
  * `get_llm_response` (lines 83-101): one `ollama.chat` call, content or `""`,
    and a fixed apology string on exception;
  * the main block (lines 105-162): translate, execute, retry once when the
    result is `None`, then either display the table and summarize, or fall back.

Modelling choices.  A DataFrame is a `List Row` for an abstract row type `Row`
(`result.empty` becomes `List.isEmpty`).  A single `ollama.chat` call is an
oracle value of type `ChatResp`: `Except.error ()` when the call raises,
`Except.ok content` when it returns, with `content : Option String` the
extracted message content (missing `message`/`content` keys give `none`).
Python `exec(code, {}, exec_locals)` is an oracle `ExecBehavior`: given the
code text and the current shared table it returns the table object's state
after execution together with `some` final variable bindings (name ↦ value) of
`exec_locals`, or `none` when execution raises.  The table state is threaded
explicitly because `exec` receives the live `df` object by reference and may
mutate it in place.  Local-variable values are modelled as tables, which is
how every claim reads them.  `mainFlow` models one press of the button with a
non-empty query; the query string itself only parametrizes the oracle
responses, so it is left implicit in the `Interaction` record.
-/

namespace RecipeApp

/-- One observable event of an interaction: a blocking network call to the
language-model service (`translate` = `generate_query_code`'s chat call,
`summarize` = the inline insights chat call, `fallback` = `get_llm_response`'s
chat call), or one invocation of `execute_query_code`. -/
inductive Ev where
  | translate : Ev
  | execCall : Ev
  | summarize : Ev
  | fallback : Ev
deriving DecidableEq, Repr

/-- Outcome of one `ollama.chat` call: `Except.error ()` when the call raises,
`Except.ok content` when it returns with extracted content `content`
(`none` when the `message`/`content` keys are absent). -/
abbrev ChatResp := Except Unit (Option String)

/-- Does the character list `hay` start with `needle`? -/
def startsWithL : List Char → List Char → Bool
  | _, [] => true
  | [], _ :: _ => false
  | a :: as, b :: bs => decide (a = b) && startsWithL as bs

/-- Does `needle` occur as a contiguous run inside `hay`?  This is Python's
substring test `needle in hay`. -/
def containsL : List Char → List Char → Bool
  | [], needle => needle.isEmpty
  | a :: tl, needle => startsWithL (a :: tl) needle || containsL tl needle

/-- Python's `needle in hay` on strings. -/
def strContains (hay needle : String) : Bool :=
  containsL hay.data needle.data

/-- Python's `str.lower()` (the generated code is ASCII, where the two
lowercasing conventions agree). -/
def pyLower (s : String) : String :=
  ⟨s.data.map Char.toLower⟩

/-- Python's `str.strip()`: drop whitespace from both ends. -/
def pyStrip (s : String) : String :=
  ⟨((s.data.dropWhile Char.isWhitespace).reverse.dropWhile Char.isWhitespace).reverse⟩

/-- Embeds `generate_query_code` (testing.py lines 27-64): the chat response's
content, stripped; `""` when the call raises or the content is missing. -/
def generate_query_code (resp : ChatResp) : String :=
  match resp with
  | Except.error _ => ""
  | Except.ok content => pyStrip (content.getD "")

/-- Embeds `get_llm_response` (testing.py lines 83-101): the chat response's
content (not stripped, `""` when missing); a fixed apology on exception. -/
def get_llm_response (resp : ChatResp) : String :=
  match resp with
  | Except.error _ =>
      "⚠️ Sorry, we couldn\u0027t find the recipe, and the AI couldn\u0027t generate a response at this time."
  | Except.ok content => content.getD ""

/-- Embeds the insight-extraction step (testing.py lines 130-155): the text
displayed as key insights, or `none` when the chat call raises or returns
empty content (both of those paths show a warning instead). -/
def insightsOf (resp : ChatResp) : Option String :=
  match resp with
  | Except.error _ => none
  | Except.ok content =>
      let extracted := content.getD ""
      if extracted = "" then none else some extracted

/-- Oracle for Python's `exec(code, {}, exec_locals)` with
`exec_locals = {"df": df}`: from the code text and the state of the shared
table, produce the table state after execution (the object is passed by
reference, so executed code can mutate it in place) and `some` final bindings
of `exec_locals`, or `none` when execution raises. -/
structure ExecBehavior (Row : Type) where
  run : String → List Row → List Row × Option (List (String × List Row))

/-- Python's `exec_locals.get(x, None)` on the final bindings. -/
def lookupVar {Row : Type} (execLocals : List (String × List Row)) (x : String) :
    Option (List Row) :=
  match execLocals.find? (fun p => decide (p.1 = x)) with
  | some p => some p.2
  | none => none

/-- Embeds `execute_query_code` (testing.py lines 68-79).  Returns the value
bound to `result` (or `None`) together with the state of the shared table
after the call. -/
def execute_query_code {Row : Type} (E : ExecBehavior Row) (df : List Row)
    (code : String) : Option (List Row) × List Row :=
  if strContains (pyLower code) "result =" then
    match E.run code df with
    | (dfAfter, some execLocals) => (lookupVar execLocals "result", dfAfter)
    | (dfAfter, none) => (none, dfAfter)
  else
    (none, df)

/-- The oracle responses consumed by one button press: the two possible
translate calls, the `exec` behaviour, and the summarize / fallback calls. -/
structure Interaction (Row : Type) where
  transResp1 : ChatResp
  transResp2 : ChatResp
  exec : ExecBehavior Row
  sumResp : ChatResp
  fbResp : ChatResp

/-- Everything the main block shows or does during one interaction. -/
structure MainOut (Row : Type) where
  warnedInitialFailure : Bool
  shownCode : Option String
  displayedTable : Option (List Row)
  insightsShown : Option String
  fallbackText : Option String
  trace : List Ev
  finalDf : List Row
deriving Repr

/-- Embeds testing.py lines 116-122: first execution, then — exactly when the
first result is `None` — one more translate and one more execution.  Returns
the final `result`, the table state after all executions, and the trace of
events so far. -/
def runWithRetry {Row : Type} (env : Interaction Row) (df : List Row)
    (code1 : String) : Option (List Row) × List Row × List Ev :=
  let firstRun := execute_query_code env.exec df code1
  match firstRun.1 with
  | none =>
      let code2 := generate_query_code env.transResp2
      let secondRun := execute_query_code env.exec firstRun.2 code2
      (secondRun.1, secondRun.2, [Ev.translate, Ev.execCall, Ev.translate, Ev.execCall])
  | some rows => (some rows, firstRun.2, [Ev.translate, Ev.execCall])

/-- Embeds testing.py lines 124-162: with the post-retry `result` in hand,
either display the table and summarize (result present and non-empty), or
invoke the fallback free-text path. -/
def renderOutcome {Row : Type} (env : Interaction Row) (code1 : String)
    (res : Option (List Row) × List Row × List Ev) : MainOut Row :=
  match res.1 with
  | some rows =>
      if rows.isEmpty then
        { warnedInitialFailure := false, shownCode := some code1,
          displayedTable := none, insightsShown := none,
          fallbackText := some (get_llm_response env.fbResp),
          trace := res.2.2 ++ [Ev.fallback], finalDf := res.2.1 }
      else
        { warnedInitialFailure := false, shownCode := some code1,
          displayedTable := some rows, insightsShown := insightsOf env.sumResp,
          fallbackText := none,
          trace := res.2.2 ++ [Ev.summarize], finalDf := res.2.1 }
  | none =>
      { warnedInitialFailure := false, shownCode := some code1,
        displayedTable := none, insightsShown := none,
        fallbackText := some (get_llm_response env.fbResp),
        trace := res.2.2 ++ [Ev.fallback], finalDf := res.2.1 }

/-- Embeds the main block (testing.py lines 105-162) for one button press with
a non-empty query: translate once; if the result is empty, warn and stop;
otherwise show the code, execute with a single retry on `None`, and render
the outcome. -/
def mainFlow {Row : Type} (env : Interaction Row) (df : List Row) : MainOut Row :=
  let code1 := generate_query_code env.transResp1
  if code1 = "" then
    { warnedInitialFailure := true, shownCode := none, displayedTable := none,
      insightsShown := none, fallbackText := none, trace := [Ev.translate],
      finalDf := df }
  else
    renderOutcome env code1 (runWithRetry env df code1)

/-- Number of occurrences of event `e` in a trace. -/
def countEv (e : Ev) (tr : List Ev) : Nat :=
  (tr.filter (fun x => decide (x = e))).length

/-- The network calls of a trace: everything except `execCall` events. -/
def netCalls (tr : List Ev) : List Ev :=
  tr.filter (fun x => decide (x ≠ Ev.execCall))

/-- Behaviour of `exec` on code that succeeds and binds `result` to the whole
table, e.g. the Python snippet `result = df`. -/
def okExec : ExecBehavior Nat where
  run := fun _ df => (df, some [("result", df), ("df", df)])

/-- Behaviour of `exec` on code whose evaluation raises, e.g. the snippet
`result = df[df.NoSuchColumn > 0]` (a `KeyError`): no bindings are produced
and the table is untouched. -/
def failExec : ExecBehavior Nat where
  run := fun _ df => (df, none)

/-- Behaviour of `exec` on code that succeeds but binds `result` to an empty
selection, e.g. the Python snippet `result = df.head(0)`. -/
def emptyExec : ExecBehavior Nat where
  run := fun _ df => (df, some [("result", []), ("df", df)])

/-- Behaviour of `exec` on the Python snippet
`df.drop(df.index, inplace=True)\nresult = df`: the in-place drop empties the
shared table object, and `result` is bound to that now-empty table. -/
def mutExec : ExecBehavior Nat where
  run := fun _ _ => ([], some [("result", []), ("df", [])])

/-- Behaviour of `exec` on the Python snippet `RESULT = df`: execution
completes without raising, binding only the upper-case name `RESULT`. -/
def upperExec : ExecBehavior Nat where
  run := fun _ df => (df, some [("RESULT", df), ("df", df)])

/-- Behaviour of `exec` on the Python snippet `myresult = df`: execution
completes without raising, binding only the name `myresult`. -/
def myresultExec : ExecBehavior Nat where
  run := fun _ df => (df, some [("myresult", df), ("df", df)])

/-- An interaction in which every service call succeeds and the generated
code runs and finds rows. -/
def okEnv : Interaction Nat where
  transResp1 := Except.ok (some "result = df")
  transResp2 := Except.ok (some "result = df")
  exec := okExec
  sumResp := Except.ok (some "the rows share a cuisine")
  fbResp := Except.ok (some "a generated recipe")

/-- An interaction whose generated code always raises during evaluation. -/
def doubleFailEnv : Interaction Nat :=
  { okEnv with exec := failExec }

/-- An interaction whose generated code runs but selects an empty row set. -/
def emptyEnv : Interaction Nat :=
  { okEnv with exec := emptyExec }

/-- An interaction where the first generated code raises and the retry
translate call itself fails, returning the empty string. -/
def retryFailEnv : Interaction Nat :=
  { okEnv with exec := failExec, transResp2 := Except.error () }

/-- An interaction whose initial translate call raises. -/
def noTranslateEnv : Interaction Nat :=
  { okEnv with transResp1 := Except.error () }

/-- When the initial translate call yields the empty string, the main block
only warns: no execution, no further network call, nothing displayed. -/
theorem mainFlow_warn {Row : Type} (env : Interaction Row) (df : List Row)
    (h : generate_query_code env.transResp1 = "") :
    mainFlow env df =
      { warnedInitialFailure := true, shownCode := none, displayedTable := none,
        insightsShown := none, fallbackText := none, trace := [Ev.translate],
        finalDf := df } := by
  simp [mainFlow, h]

/-- When the first generated code is non-empty and its execution returns a
non-empty row set, the main block displays that row set and summarizes. -/
theorem mainFlow_first_success {Row : Type} (env : Interaction Row) (df : List Row)
    (rows : List Row)
    (hne : generate_query_code env.transResp1 ≠ "")
    (h1 : (execute_query_code env.exec df (generate_query_code env.transResp1)).1 = some rows)
    (hrows : rows ≠ []) :
    mainFlow env df =
      { warnedInitialFailure := false,
        shownCode := some (generate_query_code env.transResp1),
        displayedTable := some rows, insightsShown := insightsOf env.sumResp,
        fallbackText := none,
        trace := [Ev.translate, Ev.execCall, Ev.summarize],
        finalDf := (execute_query_code env.exec df (generate_query_code env.transResp1)).2 } := by
  simp [mainFlow, runWithRetry, renderOutcome, hne, h1, hrows]

/-- When the first generated code is non-empty and its execution returns an
empty row set, the main block skips the retry and goes straight to the
fallback path. -/
theorem mainFlow_first_empty {Row : Type} (env : Interaction Row) (df : List Row)
    (hne : generate_query_code env.transResp1 ≠ "")
    (h1 : (execute_query_code env.exec df (generate_query_code env.transResp1)).1 = some []) :
    mainFlow env df =
      { warnedInitialFailure := false,
        shownCode := some (generate_query_code env.transResp1),
        displayedTable := none, insightsShown := none,
        fallbackText := some (get_llm_response env.fbResp),
        trace := [Ev.translate, Ev.execCall, Ev.fallback],
        finalDf := (execute_query_code env.exec df (generate_query_code env.transResp1)).2 } := by
  simp [mainFlow, runWithRetry, renderOutcome, hne, h1]

/-- When the first execution returns `None` and the retried execution returns
a non-empty row set, the main block displays the second row set and
summarizes. -/
theorem mainFlow_retry_success {Row : Type} (env : Interaction Row) (df : List Row)
    (rows : List Row)
    (hne : generate_query_code env.transResp1 ≠ "")
    (h1 : (execute_query_code env.exec df (generate_query_code env.transResp1)).1 = none)
    (h2 : (execute_query_code env.exec
            (execute_query_code env.exec df (generate_query_code env.transResp1)).2
            (generate_query_code env.transResp2)).1 = some rows)
    (hrows : rows ≠ []) :
    mainFlow env df =
      { warnedInitialFailure := false,
        shownCode := some (generate_query_code env.transResp1),
        displayedTable := some rows, insightsShown := insightsOf env.sumResp,
        fallbackText := none,
        trace := [Ev.translate, Ev.execCall, Ev.translate, Ev.execCall, Ev.summarize],
        finalDf := (execute_query_code env.exec
            (execute_query_code env.exec df (generate_query_code env.transResp1)).2
            (generate_query_code env.transResp2)).2 } := by
  simp [mainFlow, runWithRetry, renderOutcome, hne, h1, h2, hrows]

/-- When the first execution returns `None` and the retried execution returns
`None` again or an empty row set, the main block takes the fallback path. -/
theorem mainFlow_retry_fallback {Row : Type} (env : Interaction Row) (df : List Row)
    (hne : generate_query_code env.transResp1 ≠ "")
    (h1 : (execute_query_code env.exec df (generate_query_code env.transResp1)).1 = none)
    (h2 : (execute_query_code env.exec
            (execute_query_code env.exec df (generate_query_code env.transResp1)).2
            (generate_query_code env.transResp2)).1 = none ∨
          (execute_query_code env.exec
            (execute_query_code env.exec df (generate_query_code env.transResp1)).2
            (generate_query_code env.transResp2)).1 = some []) :
    mainFlow env df =
      { warnedInitialFailure := false,
        shownCode := some (generate_query_code env.transResp1),
        displayedTable := none, insightsShown := none,
        fallbackText := some (get_llm_response env.fbResp),
        trace := [Ev.translate, Ev.execCall, Ev.translate, Ev.execCall, Ev.fallback],
        finalDf := (execute_query_code env.exec
            (execute_query_code env.exec df (generate_query_code env.transResp1)).2
            (generate_query_code env.transResp2)).2 } := by
  rcases h2 with h2 | h2 <;> simp [mainFlow, runWithRetry, renderOutcome, hne, h1, h2]

/-- A successful return of `execute_query_code` comes from an `exec` run that
completed with `result` bound to the returned value. -/
theorem execute_some_run {Row : Type} (E : ExecBehavior Row) (df : List Row)
    (code : String) (v : List Row)
    (h : (execute_query_code E df code).1 = some v) :
    strContains (pyLower code) "result =" = true ∧
    ∃ L, (E.run code df).2 = some L ∧ lookupVar L "result" = some v := by
  unfold execute_query_code at h
  split at h
  · rcases hE : E.run code df with ⟨d, l⟩
    rw [hE] at h
    cases l with
    | none => simp at h
    | some L => exact ⟨by assumption, L, by simp [hE], by simpa using h⟩
  · simp at h

/-- Running the empty string through `execute_query_code` fails the substring
check, so `exec` is never reached and the table is untouched. -/
theorem execute_empty_string {Row : Type} (E : ExecBehavior Row) (df : List Row) :
    execute_query_code E df "" = (none, df) := by
  rfl

/-- C1: whenever the main block displays a table, the displayed table is the
non-empty value that the generated expression's execution — the first
attempt against the startup table, or the retried attempt against the table
state the first execution left behind — bound to the variable `result`. -/
theorem displayed_table_eq_assigned {Row : Type} (env : Interaction Row)
    (df : List Row) (rows : List Row)
    (h : (mainFlow env df).displayedTable = some rows) :
    rows ≠ [] ∧
    ∃ code dfBefore L,
      ((code = generate_query_code env.transResp1 ∧ dfBefore = df) ∨
       (code = generate_query_code env.transResp2 ∧
        dfBefore = (execute_query_code env.exec df (generate_query_code env.transResp1)).2)) ∧
      (env.exec.run code dfBefore).2 = some L ∧
      lookupVar L "result" = some rows := by
  by_cases hne : generate_query_code env.transResp1 = ""
  · rw [mainFlow_warn env df hne] at h
    simp at h
  · rcases hr1 : (execute_query_code env.exec df (generate_query_code env.transResp1)).1
      with _ | rows1
    · rcases hr2 : (execute_query_code env.exec
          (execute_query_code env.exec df (generate_query_code env.transResp1)).2
          (generate_query_code env.transResp2)).1 with _ | rows2
      · rw [mainFlow_retry_fallback env df hne hr1 (Or.inl hr2)] at h
        simp at h
      · by_cases hz : rows2 = []
        · subst hz
          rw [mainFlow_retry_fallback env df hne hr1 (Or.inr hr2)] at h
          simp at h
        · rw [mainFlow_retry_success env df rows2 hne hr1 hr2 hz] at h
          simp at h
          subst h
          obtain ⟨hc, L, hL, hres⟩ := execute_some_run env.exec _ _ rows2 hr2
          exact ⟨hz, _, _, L, Or.inr ⟨rfl, rfl⟩, hL, hres⟩
    · by_cases hz : rows1 = []
      · subst hz
        rw [mainFlow_first_empty env df hne hr1] at h
        simp at h
      · rw [mainFlow_first_success env df rows1 hne hr1 hz] at h
        simp at h
        subst h
        obtain ⟨hc, L, hL, hres⟩ := execute_some_run env.exec df _ rows1 hr1
        exact ⟨hz, _, df, L, Or.inl ⟨rfl, rfl⟩, hL, hres⟩

/-- C1 witness: in `okEnv` the table `[1, 2]` is displayed, and it is exactly
the value execution bound to `result`. -/
theorem displayed_table_eq_assigned_witness :
    (mainFlow okEnv [1, 2]).displayedTable = some [1, 2] ∧
    (([1, 2] : List Nat) ≠ [] ∧
     ∃ code dfBefore L,
       ((code = generate_query_code okEnv.transResp1 ∧ dfBefore = [1, 2]) ∨
        (code = generate_query_code okEnv.transResp2 ∧
         dfBefore = (execute_query_code okEnv.exec [1, 2]
           (generate_query_code okEnv.transResp1)).2)) ∧
       (okEnv.exec.run code dfBefore).2 = some L ∧
       lookupVar L "result" = some [1, 2]) :=
  ⟨by decide, displayed_table_eq_assigned okEnv [1, 2] [1, 2] (by decide)⟩

/-- C2 counterexample: the Python snippet
`df.drop(df.index, inplace=True)\nresult = df` passes the result-assignment
check and empties the shared table in place, so after `execute_query_code`
the dataset is no longer the `[1]` it started as: evaluating a generated
expression can mutate the in-memory table. -/
theorem dataset_mutation_possible :
    (execute_query_code mutExec [1] "df.drop(df.index, inplace=True)\nresult = df").2 ≠ [1] := by
  decide

/-- C2 (amended): the dataset is unchanged after `execute_query_code`
whenever the executed code itself leaves the table object unchanged (in
particular always when the result-assignment check fails, since `exec` is
then never invoked); the function itself never replaces the table. -/
theorem dataset_preserved_of_nonmutating {Row : Type} (E : ExecBehavior Row)
    (df : List Row) (code : String)
    (h : (E.run code df).1 = df) :
    (execute_query_code E df code).2 = df := by
  unfold execute_query_code
  split
  · rcases hE : E.run code df with ⟨d, l⟩
    rw [hE] at h
    cases l <;> simpa using h
  · rfl

/-- C2 witness: a non-mutating successful execution leaves the dataset
`[1]` unchanged. -/
theorem dataset_preserved_of_nonmutating_witness :
    (okExec.run "result = df" [1]).1 = [1] ∧
    (execute_query_code okExec [1] "result = df").2 = [1] :=
  ⟨rfl, dataset_preserved_of_nonmutating okExec [1] "result = df" rfl⟩

/-- C3 counterexample: on the snippet `RESULT = df` the case-insensitive
substring check passes and evaluation completes without raising, yet
`execute_query_code` still returns `None` — absence is not equivalent to an
evaluation error. -/
theorem absent_without_error :
    strContains (pyLower "RESULT = df") "result =" = true ∧
    (upperExec.run "RESULT = df" [1]).2 ≠ none ∧
    (execute_query_code upperExec [1] "RESULT = df").1 = none := by
  decide

/-- C3 (amended): `execute_query_code` returns `None` exactly when the text
lacks the substring `result =` (lowercased), or evaluation raises, or
evaluation completes without binding `result`; it returns a value exactly
when the check passes and evaluation completes with `result` bound to that
value. -/
theorem run_absent_characterization {Row : Type} (E : ExecBehavior Row)
    (df : List Row) (code : String) :
    ((execute_query_code E df code).1 = none ↔
      strContains (pyLower code) "result =" = false ∨
      (E.run code df).2 = none ∨
      ∃ L, (E.run code df).2 = some L ∧ lookupVar L "result" = none) ∧
    (∀ v, (execute_query_code E df code).1 = some v ↔
      strContains (pyLower code) "result =" = true ∧
      ∃ L, (E.run code df).2 = some L ∧ lookupVar L "result" = some v) := by
  unfold execute_query_code
  rcases hE : E.run code df with ⟨d, l⟩
  cases hc : strContains (pyLower code) "result =" <;> cases l <;> simp [hc, hE]

/-- C4: when the first generated expression is non-empty but its execution
returns `None` (invalid code or evaluation error), exactly one further
translate call and one further execution are made — two of each in total,
never more. -/
theorem retry_exactly_once {Row : Type} (env : Interaction Row) (df : List Row)
    (hne : generate_query_code env.transResp1 ≠ "")
    (hfail : (execute_query_code env.exec df (generate_query_code env.transResp1)).1 = none) :
    countEv Ev.translate (mainFlow env df).trace = 2 ∧
    countEv Ev.execCall (mainFlow env df).trace = 2 := by
  rcases hr2 : (execute_query_code env.exec
      (execute_query_code env.exec df (generate_query_code env.transResp1)).2
      (generate_query_code env.transResp2)).1 with _ | rows2
  · rw [mainFlow_retry_fallback env df hne hfail (Or.inl hr2)]
    exact ⟨rfl, rfl⟩
  · by_cases hz : rows2 = []
    · subst hz
      rw [mainFlow_retry_fallback env df hne hfail (Or.inr hr2)]
      exact ⟨rfl, rfl⟩
    · rw [mainFlow_retry_success env df rows2 hne hfail hr2 hz]
      exact ⟨rfl, rfl⟩

/-- C4 witness: when every execution raises, the interaction makes exactly
two translate calls and two execution attempts. -/
theorem retry_exactly_once_witness :
    generate_query_code doubleFailEnv.transResp1 ≠ "" ∧
    (execute_query_code doubleFailEnv.exec [1]
      (generate_query_code doubleFailEnv.transResp1)).1 = none ∧
    (countEv Ev.translate (mainFlow doubleFailEnv [1]).trace = 2 ∧
     countEv Ev.execCall (mainFlow doubleFailEnv [1]).trace = 2) :=
  ⟨by decide, by decide, retry_exactly_once doubleFailEnv [1] (by decide) (by decide)⟩

/-- C5 counterexample: in `emptyEnv` the first execution succeeds with an
empty row set, and the main block makes no second translate call and no
second execution — it falls back after a single attempt, so an empty row
set does not count as absent for the retry. -/
theorem empty_first_result_no_retry :
    (execute_query_code emptyEnv.exec [1] (generate_query_code emptyEnv.transResp1)).1
      = some [] ∧
    countEv Ev.translate (mainFlow emptyEnv [1]).trace = 1 ∧
    countEv Ev.execCall (mainFlow emptyEnv [1]).trace = 1 ∧
    (mainFlow emptyEnv [1]).fallbackText = some "a generated recipe" := by
  decide

/-- C5 (amended): after a non-empty first translate, the second translate
call happens exactly when the first execution returns `None`; a first
execution that returns an empty row set triggers no retry and leads directly
to the fallback text. -/
theorem retry_iff_first_absent {Row : Type} (env : Interaction Row) (df : List Row)
    (hne : generate_query_code env.transResp1 ≠ "") :
    (countEv Ev.translate (mainFlow env df).trace = 2 ↔
      (execute_query_code env.exec df (generate_query_code env.transResp1)).1 = none) ∧
    ((execute_query_code env.exec df (generate_query_code env.transResp1)).1 = some [] →
      countEv Ev.translate (mainFlow env df).trace = 1 ∧
      countEv Ev.execCall (mainFlow env df).trace = 1 ∧
      (mainFlow env df).fallbackText = some (get_llm_response env.fbResp)) := by
  rcases hr1 : (execute_query_code env.exec df (generate_query_code env.transResp1)).1
    with _ | rows1
  · have h2 : countEv Ev.translate (mainFlow env df).trace = 2 := by
      rcases hr2 : (execute_query_code env.exec
          (execute_query_code env.exec df (generate_query_code env.transResp1)).2
          (generate_query_code env.transResp2)).1 with _ | rows2
      · rw [mainFlow_retry_fallback env df hne hr1 (Or.inl hr2)]; rfl
      · by_cases hz : rows2 = []
        · subst hz
          rw [mainFlow_retry_fallback env df hne hr1 (Or.inr hr2)]; rfl
        · rw [mainFlow_retry_success env df rows2 hne hr1 hr2 hz]; rfl
    simp [h2]
  · by_cases hz : rows1 = []
    · subst hz
      rw [mainFlow_first_empty env df hne hr1]
      refine ⟨by simp [countEv], fun _ => ⟨rfl, rfl, rfl⟩⟩
    · rw [mainFlow_first_success env df rows1 hne hr1 hz]
      refine ⟨by simp [countEv], fun hcon => absurd (by simpa using hcon) hz⟩

/-- C5 witness: the amended statement evaluated on the empty-result
interaction. -/
theorem retry_iff_first_absent_witness :
    generate_query_code emptyEnv.transResp1 ≠ "" ∧
    ((countEv Ev.translate (mainFlow emptyEnv [1]).trace = 2 ↔
       (execute_query_code emptyEnv.exec [1]
         (generate_query_code emptyEnv.transResp1)).1 = none) ∧
     ((execute_query_code emptyEnv.exec [1]
         (generate_query_code emptyEnv.transResp1)).1 = some [] →
       countEv Ev.translate (mainFlow emptyEnv [1]).trace = 1 ∧
       countEv Ev.execCall (mainFlow emptyEnv [1]).trace = 1 ∧
       (mainFlow emptyEnv [1]).fallbackText = some (get_llm_response emptyEnv.fbResp))) :=
  ⟨by decide, retry_iff_first_absent emptyEnv [1] (by decide)⟩

/-- C6: when both execution attempts yield `None` or an empty row set, the
fallback free-text call is made exactly once and the summarization call is
never made; the fallback text is what is displayed. -/
theorem fallback_once_no_summarize {Row : Type} (env : Interaction Row) (df : List Row)
    (hne : generate_query_code env.transResp1 ≠ "")
    (h1 : (execute_query_code env.exec df (generate_query_code env.transResp1)).1 = none)
    (h2 : (execute_query_code env.exec
            (execute_query_code env.exec df (generate_query_code env.transResp1)).2
            (generate_query_code env.transResp2)).1 = none ∨
          (execute_query_code env.exec
            (execute_query_code env.exec df (generate_query_code env.transResp1)).2
            (generate_query_code env.transResp2)).1 = some []) :
    countEv Ev.fallback (mainFlow env df).trace = 1 ∧
    countEv Ev.summarize (mainFlow env df).trace = 0 ∧
    (mainFlow env df).fallbackText = some (get_llm_response env.fbResp) := by
  rw [mainFlow_retry_fallback env df hne h1 h2]
  exact ⟨rfl, rfl, rfl⟩

/-- C6 witness: with both executions raising, the fallback path fires once
and summarization never does. -/
theorem fallback_once_no_summarize_witness :
    generate_query_code doubleFailEnv.transResp1 ≠ "" ∧
    (execute_query_code doubleFailEnv.exec [1]
      (generate_query_code doubleFailEnv.transResp1)).1 = none ∧
    (countEv Ev.fallback (mainFlow doubleFailEnv [1]).trace = 1 ∧
     countEv Ev.summarize (mainFlow doubleFailEnv [1]).trace = 0 ∧
     (mainFlow doubleFailEnv [1]).fallbackText
       = some (get_llm_response doubleFailEnv.fbResp)) :=
  ⟨by decide, by decide,
   fallback_once_no_summarize doubleFailEnv [1] (by decide) (by decide)
     (Or.inl (by decide))⟩

/-- C7: when the initial translate call produces the empty string, the main
block warns immediately and nothing else happens: no execution attempt, no
summarize call, no fallback call, no table. -/
theorem translate_failure_immediate {Row : Type} (env : Interaction Row) (df : List Row)
    (h : generate_query_code env.transResp1 = "") :
    (mainFlow env df).warnedInitialFailure = true ∧
    (mainFlow env df).trace = [Ev.translate] ∧
    countEv Ev.execCall (mainFlow env df).trace = 0 ∧
    countEv Ev.summarize (mainFlow env df).trace = 0 ∧
    countEv Ev.fallback (mainFlow env df).trace = 0 ∧
    (mainFlow env df).displayedTable = none := by
  rw [mainFlow_warn env df h]
  exact ⟨rfl, rfl, rfl, rfl, rfl, rfl⟩

/-- C7 witness: the immediate-failure behaviour on an interaction whose
initial translate call raises. -/
theorem translate_failure_immediate_witness :
    generate_query_code noTranslateEnv.transResp1 = "" ∧
    ((mainFlow noTranslateEnv [1]).warnedInitialFailure = true ∧
     (mainFlow noTranslateEnv [1]).trace = [Ev.translate] ∧
     countEv Ev.execCall (mainFlow noTranslateEnv [1]).trace = 0 ∧
     countEv Ev.summarize (mainFlow noTranslateEnv [1]).trace = 0 ∧
     countEv Ev.fallback (mainFlow noTranslateEnv [1]).trace = 0 ∧
     (mainFlow noTranslateEnv [1]).displayedTable = none) :=
  ⟨by decide, translate_failure_immediate noTranslateEnv [1] (by decide)⟩

/-- C8: every interaction makes at most four network calls, and the calls
made are always one translate, optionally a second translate, and then at
most one summarize-or-fallback call (the final call is absent exactly on the
immediate-failure path). -/
theorem network_call_pattern {Row : Type} (env : Interaction Row) (df : List Row) :
    (netCalls (mainFlow env df).trace).length ≤ 4 ∧
    (netCalls (mainFlow env df).trace = [Ev.translate] ∨
     netCalls (mainFlow env df).trace = [Ev.translate, Ev.summarize] ∨
     netCalls (mainFlow env df).trace = [Ev.translate, Ev.fallback] ∨
     netCalls (mainFlow env df).trace = [Ev.translate, Ev.translate, Ev.summarize] ∨
     netCalls (mainFlow env df).trace = [Ev.translate, Ev.translate, Ev.fallback]) := by
  by_cases hne : generate_query_code env.transResp1 = ""
  · rw [mainFlow_warn env df hne]
    exact ⟨show (netCalls [Ev.translate]).length ≤ 4 by decide, Or.inl rfl⟩
  · rcases hr1 : (execute_query_code env.exec df (generate_query_code env.transResp1)).1
      with _ | rows1
    · rcases hr2 : (execute_query_code env.exec
          (execute_query_code env.exec df (generate_query_code env.transResp1)).2
          (generate_query_code env.transResp2)).1 with _ | rows2
      · rw [mainFlow_retry_fallback env df hne hr1 (Or.inl hr2)]
        exact ⟨show (netCalls [Ev.translate, Ev.execCall, Ev.translate, Ev.execCall,
            Ev.fallback]).length ≤ 4 by decide,
          Or.inr (Or.inr (Or.inr (Or.inr rfl)))⟩
      · by_cases hz : rows2 = []
        · subst hz
          rw [mainFlow_retry_fallback env df hne hr1 (Or.inr hr2)]
          exact ⟨show (netCalls [Ev.translate, Ev.execCall, Ev.translate, Ev.execCall,
              Ev.fallback]).length ≤ 4 by decide,
            Or.inr (Or.inr (Or.inr (Or.inr rfl)))⟩
        · rw [mainFlow_retry_success env df rows2 hne hr1 hr2 hz]
          exact ⟨show (netCalls [Ev.translate, Ev.execCall, Ev.translate, Ev.execCall,
              Ev.summarize]).length ≤ 4 by decide,
            Or.inr (Or.inr (Or.inr (Or.inl rfl)))⟩
    · by_cases hz : rows1 = []
      · subst hz
        rw [mainFlow_first_empty env df hne hr1]
        exact ⟨show (netCalls [Ev.translate, Ev.execCall, Ev.fallback]).length ≤ 4
            by decide,
          Or.inr (Or.inr (Or.inl rfl))⟩
      · rw [mainFlow_first_success env df rows1 hne hr1 hz]
        exact ⟨show (netCalls [Ev.translate, Ev.execCall, Ev.summarize]).length ≤ 4
            by decide,
          Or.inr (Or.inl rfl)⟩

/-- C9: the snippet `myresult = df` passes the validity check (the substring
test sees `result =` inside `myresult =`), its evaluation completes without
raising and binds only `myresult`, yet `execute_query_code` returns `None`
because the variable `result` itself was never bound. -/
theorem check_passes_but_result_unbound :
    strContains (pyLower "myresult = df") "result =" = true ∧
    (myresultExec.run "myresult = df" [1]).2 = some [("myresult", [1]), ("df", [1])] ∧
    (execute_query_code myresultExec [1] "myresult = df").1 = none := by
  decide

/-- C10: when the first expression fails (execution returns `None`) and the
retry translate call returns the empty string, the initial-failure warning is
not shown; the empty string is still passed to `execute_query_code`, which
returns `None`, and the interaction ends in the fallback path. -/
theorem retry_translate_empty_goes_fallback {Row : Type} (env : Interaction Row)
    (df : List Row)
    (hne : generate_query_code env.transResp1 ≠ "")
    (h1 : (execute_query_code env.exec df (generate_query_code env.transResp1)).1 = none)
    (h2 : generate_query_code env.transResp2 = "") :
    (mainFlow env df).warnedInitialFailure = false ∧
    (mainFlow env df).trace
      = [Ev.translate, Ev.execCall, Ev.translate, Ev.execCall, Ev.fallback] ∧
    (mainFlow env df).fallbackText = some (get_llm_response env.fbResp) ∧
    (execute_query_code env.exec
       (execute_query_code env.exec df (generate_query_code env.transResp1)).2
       (generate_query_code env.transResp2)).1 = none := by
  have hsec : (execute_query_code env.exec
      (execute_query_code env.exec df (generate_query_code env.transResp1)).2
      (generate_query_code env.transResp2)).1 = none := by
    rw [h2, execute_empty_string]
  rw [mainFlow_retry_fallback env df hne h1 (Or.inl hsec)]
  exact ⟨rfl, rfl, rfl, hsec⟩

/-- C10 witness: first execution raises, retry translate raises (yielding
the empty string), and the interaction ends in fallback with no
initial-failure warning. -/
theorem retry_translate_empty_goes_fallback_witness :
    generate_query_code retryFailEnv.transResp1 ≠ "" ∧
    (execute_query_code retryFailEnv.exec [1]
      (generate_query_code retryFailEnv.transResp1)).1 = none ∧
    generate_query_code retryFailEnv.transResp2 = "" ∧
    ((mainFlow retryFailEnv [1]).warnedInitialFailure = false ∧
     (mainFlow retryFailEnv [1]).trace
       = [Ev.translate, Ev.execCall, Ev.translate, Ev.execCall, Ev.fallback] ∧
     (mainFlow retryFailEnv [1]).fallbackText
       = some (get_llm_response retryFailEnv.fbResp) ∧
     (execute_query_code retryFailEnv.exec
        (execute_query_code retryFailEnv.exec [1]
          (generate_query_code retryFailEnv.transResp1)).2
        (generate_query_code retryFailEnv.transResp2)).1 = none) :=
  ⟨by decide, by decide, by decide,
   retry_translate_empty_goes_fallback retryFailEnv [1] (by decide) (by decide) (by decide)⟩

end RecipeApp
